import Mathlib

/-!
Shallow embedding of the two command-line calculators in this repository:
src/test_folder/calculator/calculator.py and src/test_repo/calculator/calculator.py.

Python 64-bit floats are modelled as exact rationals: every arithmetic
expression the claims quantify over (a + b, a - b, a * b, a / b on finite
operands) is embedded exactly; IEEE rounding, infinities and NaN are outside
the model. The main function of each variant is modelled from the point
where argument parsing has already produced a validated operation and two
operands, as the external-collaborator contract of the spec prescribes; a
process run is described by its stdout lines, stderr lines and exit code.
-/

/-- The four operations selectable on the command line in either variant
(add / subtract / multiply / divide in test_folder, add / sub / mul / div
subcommands in test_repo). -/
inductive Operation
  | add
  | subtract
  | multiply
  | divide
  deriving DecidableEq

/-- Observable outcome of one process run after successful argument parsing:
the stdout lines, the stderr lines, and the exit code. -/
structure ProcOutput where
  stdout : List String
  stderr : List String
  exitCode : Nat
  deriving DecidableEq

/-- Smallest exponent k (searched up to 40) such that d divides 10 ^ k.
Reduced denominators of exactly represented binary floats are powers of two,
so such a k always exists for the values this development renders. -/
def decPow (d : ℕ) : ℕ :=
  ((List.range 40).filter fun k => 10 ^ k % d = 0).headD 0

/-- Decimal digits of m with a decimal point k places from the right, zero
padded so that at least one digit precedes the point. -/
def natDecString (m k : ℕ) : String :=
  let s := toString m
  let s := if s.length ≤ k then String.mk (List.replicate (k + 1 - s.length) '0') ++ s else s
  if k = 0 then s else s.take (s.length - k) ++ "." ++ s.drop (s.length - k)

/-- Python str() of a float value, on the exactly-represented values of this
model: an integer-valued float prints with a trailing .0, any other value
prints its terminating decimal expansion. -/
def pyFloatStr (q : ℚ) : String :=
  if q.den = 1 then toString q.num ++ ".0"
  else
    (if q.num < 0 then "-" else "") ++
      natDecString (q.num.natAbs * 10 ^ decPow q.den / q.den) (decPow q.den)

namespace TestFolder

/-- Value produced by a test_folder arithmetic function. The Python code has
no discriminated result type: divide returns either a float or a plain
string on the one return channel, which this sum type makes explicit. -/
inductive FolderResult
  | num (r : ℚ)
  | errString (s : String)
  deriving DecidableEq

/-- add from test_folder/calculator/calculator.py. -/
def add (a b : ℚ) : ℚ := a + b

/-- subtract from test_folder/calculator/calculator.py. -/
def subtract (a b : ℚ) : ℚ := a - b

/-- multiply from test_folder/calculator/calculator.py. -/
def multiply (a b : ℚ) : ℚ := a * b

/-- divide from test_folder/calculator/calculator.py: the sentinel string
when b == 0 (exact equality), otherwise a / b. -/
def divide (a b : ℚ) : FolderResult :=
  if b = 0 then .errString "Error: Division by zero" else .num (a / b)

/-- The four-way dispatch on args.operation inside test_folder main. -/
def tf_evaluate : Operation → ℚ → ℚ → FolderResult
  | .add, a, b => .num (add a b)
  | .subtract, a, b => .num (subtract a b)
  | .multiply, a, b => .num (multiply a b)
  | .divide, a, b => divide a b

/-- Python str of the result value as interpolated into the f-string of the
final print: floats via float str, the sentinel string verbatim. -/
def resultStr : FolderResult → String
  | .num r => pyFloatStr r
  | .errString s => s

/-- test_folder main after successful argument parsing: dispatches, prints a
single Result line to stdout, and the process exits 0 (main returns None). -/
def main (op : Operation) (a b : ℚ) : ProcOutput :=
  { stdout := ["Result: " ++ resultStr (tf_evaluate op a b)]
    stderr := []
    exitCode := 0 }

end TestFolder

namespace TestRepo

/-- The exception operator.truediv raises on a zero divisor. -/
inductive PyError
  | zeroDivisionError
  deriving DecidableEq

/-- operator.add, bound to the add subcommand. -/
def opAdd (a b : ℚ) : ℚ := a + b

/-- operator.sub, bound to the sub subcommand. -/
def opSub (a b : ℚ) : ℚ := a - b

/-- operator.mul, bound to the mul subcommand. -/
def opMul (a b : ℚ) : ℚ := a * b

/-- operator.truediv on floats, bound to the div subcommand: raises
ZeroDivisionError exactly when b == 0, otherwise returns a / b. -/
def truediv (a b : ℚ) : Except PyError ℚ :=
  if b = 0 then .error .zeroDivisionError else .ok (a / b)

/-- args.func(args.a, args.b): the function the chosen subcommand bound via
set_defaults, evaluated under the try block of main. -/
def applyFunc : Operation → ℚ → ℚ → Except PyError ℚ
  | .add, a, b => .ok (opAdd a b)
  | .subtract, a, b => .ok (opSub a b)
  | .multiply, a, b => .ok (opMul a b)
  | .divide, a, b => truediv a b

/-- The printing branch of test_repo main: int(result) when the float is an
integer, plain float str otherwise. -/
def formatResult (r : ℚ) : String :=
  if r.den = 1 then toString r.num else pyFloatStr r

/-- test_repo main after successful argument parsing: on ZeroDivisionError it
prints one line to stderr and returns 1; otherwise it prints the formatted
result to stdout and returns 0. -/
def main (op : Operation) (a b : ℚ) : ProcOutput :=
  match applyFunc op a b with
  | .error .zeroDivisionError =>
      { stdout := []
        stderr := ["Error: Division by zero is not allowed."]
        exitCode := 1 }
  | .ok r =>
      { stdout := [formatResult r]
        stderr := []
        exitCode := 0 }

end TestRepo

/-- C1 counterexample: in the test_folder variant, dividing 5 by 0 does not
fail with a discriminated error: divide returns the sentinel string on its
ordinary return channel, and main prints it to stdout as a normal Result
line with exit code 0. -/
theorem C1_counterexample :
    TestFolder.divide 5 0 = TestFolder.FolderResult.errString "Error: Division by zero" ∧
    (TestFolder.main Operation.divide 5 0).stdout = ["Result: Error: Division by zero"] ∧
    (TestFolder.main Operation.divide 5 0).stderr = [] ∧
    (TestFolder.main Operation.divide 5 0).exitCode = 0 := by
  refine ⟨rfl, rfl, rfl, rfl⟩

/-- C1 amended: for every operand a, division of a by exactly zero fails with
the ZeroDivisionError discriminated error in the test_repo variant; the
test_folder variant instead returns the sentinel string Error: Division by
zero as an ordinary value on the success channel. -/
theorem C1_amended_divide_zero (a : ℚ) :
    TestRepo.truediv a 0 = Except.error TestRepo.PyError.zeroDivisionError ∧
    TestRepo.applyFunc Operation.divide a 0 = Except.error TestRepo.PyError.zeroDivisionError ∧
    TestFolder.divide a 0 = TestFolder.FolderResult.errString "Error: Division by zero" := by
  refine ⟨?_, ?_, ?_⟩ <;>
    simp [TestRepo.applyFunc, TestRepo.truediv, TestFolder.divide]

/-- C2: for all operands a and b, evaluating Add, Subtract and Multiply
returns a + b, a - b and a * b respectively, in both source variants. -/
theorem C2_add_sub_mul (a b : ℚ) :
    TestFolder.tf_evaluate Operation.add a b = TestFolder.FolderResult.num (a + b) ∧
    TestFolder.tf_evaluate Operation.subtract a b = TestFolder.FolderResult.num (a - b) ∧
    TestFolder.tf_evaluate Operation.multiply a b = TestFolder.FolderResult.num (a * b) ∧
    TestRepo.applyFunc Operation.add a b = Except.ok (a + b) ∧
    TestRepo.applyFunc Operation.subtract a b = Except.ok (a - b) ∧
    TestRepo.applyFunc Operation.multiply a b = Except.ok (a * b) :=
  ⟨rfl, rfl, rfl, rfl, rfl, rfl⟩

/-- C3: for all a and all non-zero b, Divide succeeds with the quotient a / b
in both source variants; no error is signalled for any non-zero divisor. -/
theorem C3_divide_nonzero (a b : ℚ) (hb : b ≠ 0) :
    TestFolder.tf_evaluate Operation.divide a b = TestFolder.FolderResult.num (a / b) ∧
    TestRepo.applyFunc Operation.divide a b = Except.ok (a / b) := by
  constructor <;>
    simp [TestFolder.tf_evaluate, TestFolder.divide,
      TestRepo.applyFunc, TestRepo.truediv, hb]

/-- C3 witness at a = 10, b = 2. -/
theorem C3_divide_nonzero_witness :
    TestFolder.tf_evaluate Operation.divide 10 2 = TestFolder.FolderResult.num (10 / 2) ∧
    TestRepo.applyFunc Operation.divide 10 2 = Except.ok (10 / 2) :=
  C3_divide_nonzero 10 2 (by norm_num)

/-- C4 counterexample: the test_folder variant, invoked on divide 5 0 (a
valid operation with parseable operands), writes nothing to stderr and exits
with code 0, not 1. -/
theorem C4_counterexample :
    (TestFolder.main Operation.divide 5 0).stderr = [] ∧
    (TestFolder.main Operation.divide 5 0).exitCode = 0 ∧
    (TestFolder.main Operation.divide 5 0).exitCode ≠ 1 := by
  refine ⟨rfl, rfl, ?_⟩
  decide

/-- C4 amended: the test_repo variant honours the contract: one stdout line
and exit code 0 on success, and on division by zero a single stderr line and
exit code 1. The test_folder variant always prints exactly one stdout line
and exits 0, including on division by zero. -/
theorem C4_amended_process_contract (op : Operation) (a b : ℚ) :
    ((TestFolder.main op a b).stdout.length = 1 ∧
      (TestFolder.main op a b).stderr = [] ∧
      (TestFolder.main op a b).exitCode = 0) ∧
    (if op = Operation.divide ∧ b = 0 then
      TestRepo.main op a b =
        { stdout := []
          stderr := ["Error: Division by zero is not allowed."]
          exitCode := 1 }
    else
      (TestRepo.main op a b).stdout.length = 1 ∧
        (TestRepo.main op a b).stderr = [] ∧
        (TestRepo.main op a b).exitCode = 0) := by
  refine ⟨⟨rfl, rfl, rfl⟩, ?_⟩
  by_cases h : op = Operation.divide ∧ b = 0
  · rw [if_pos h]
    obtain ⟨h1, h2⟩ := h
    subst h1
    subst h2
    simp [TestRepo.main, TestRepo.applyFunc, TestRepo.truediv]
  · rw [if_neg h]
    cases op with
    | add => exact ⟨rfl, rfl, rfl⟩
    | subtract => exact ⟨rfl, rfl, rfl⟩
    | multiply => exact ⟨rfl, rfl, rfl⟩
    | divide =>
        have hb : b ≠ 0 := fun hb0 => h ⟨rfl, hb0⟩
        simp [TestRepo.main, TestRepo.applyFunc, TestRepo.truediv, hb]

/-- C5 counterexample: in the test_folder variant the result of add 2 3 is
the integer value 5, yet it is rendered with a decimal point, as 5.0, on the
Result line. -/
theorem C5_counterexample :
    TestFolder.tf_evaluate Operation.add 2 3 = TestFolder.FolderResult.num 5 ∧
    (5 : ℚ).den = 1 ∧
    TestFolder.main Operation.add 2 3 =
      { stdout := ["Result: 5.0"], stderr := [], exitCode := 0 } ∧
    '.' ∈ ("Result: 5.0").data := by
  have h : TestFolder.tf_evaluate Operation.add 2 3 = TestFolder.FolderResult.num 5 := by
    show TestFolder.FolderResult.num (TestFolder.add 2 3) = _
    norm_num [TestFolder.add]
  refine ⟨h, by decide, ?_, by decide⟩
  simp only [TestFolder.main, h]
  decide

/-- C5 amended: in the test_repo variant the formatting policy holds and is
uniform: the printed line is a function of the numeric result alone, results
with no fractional part are rendered through the integer branch without a
decimal point, other results keep their fractional part; add 2 3 prints 5
and div 10 4 prints 2.5. The test_folder variant instead renders every
numeric result with Python float str, so add 2 3 prints Result: 5.0. -/
theorem C5_amended_formatting :
    (∀ (op opb : Operation) (a b c d : ℚ),
      TestRepo.applyFunc op a b = TestRepo.applyFunc opb c d →
      TestRepo.main op a b = TestRepo.main opb c d) ∧
    (∀ r : ℚ, r.den = 1 → TestRepo.formatResult r = toString r.num) ∧
    (∀ r : ℚ, r.den ≠ 1 → TestRepo.formatResult r = pyFloatStr r) ∧
    TestRepo.main Operation.add 2 3 = { stdout := ["5"], stderr := [], exitCode := 0 } ∧
    TestRepo.main Operation.divide 10 4 =
      { stdout := ["2.5"], stderr := [], exitCode := 0 } ∧
    TestFolder.main Operation.add 2 3 =
      { stdout := ["Result: 5.0"], stderr := [], exitCode := 0 } := by
  have hadd : TestRepo.applyFunc Operation.add 2 3 = Except.ok 5 := by
    show Except.ok (TestRepo.opAdd 2 3) = _
    norm_num [TestRepo.opAdd]
  have hdiv : TestRepo.applyFunc Operation.divide 10 4 = Except.ok (mkRat 5 2) := by
    show TestRepo.truediv 10 4 = _
    rw [TestRepo.truediv, if_neg (by norm_num)]
    norm_num [Rat.mkRat_eq_div]
  have htf : TestFolder.tf_evaluate Operation.add 2 3 = TestFolder.FolderResult.num 5 := by
    show TestFolder.FolderResult.num (TestFolder.add 2 3) = _
    norm_num [TestFolder.add]
  refine ⟨?_, ?_, ?_, ?_, ?_, ?_⟩
  · intro op opb a b c d h
    simp only [TestRepo.main, h]
  · intro r hr
    simp [TestRepo.formatResult, hr]
  · intro r hr
    simp [TestRepo.formatResult, hr]
  · simp only [TestRepo.main, hadd]
    decide
  · simp only [TestRepo.main, hdiv]
    decide
  · simp only [TestFolder.main, htf]
    decide

/-- C5 amended witness: the uniformity and integer-branch clauses applied at
concrete inputs. -/
theorem C5_amended_formatting_witness :
    TestRepo.main Operation.add 2 3 = TestRepo.main Operation.add 2 3 ∧
    TestRepo.formatResult 5 = toString (5 : ℚ).num :=
  ⟨C5_amended_formatting.1 Operation.add Operation.add 2 3 2 3 rfl,
   C5_amended_formatting.2.1 5 (by decide)⟩

/-- C6: the two variants agree on the arithmetic core: add, subtract and
multiply compute the same values as operator.add, operator.sub and
operator.mul, and for every non-zero divisor both divide paths succeed with
the same quotient a / b. -/
theorem C6_core_equiv (a b : ℚ) :
    TestFolder.add a b = TestRepo.opAdd a b ∧
    TestFolder.subtract a b = TestRepo.opSub a b ∧
    TestFolder.multiply a b = TestRepo.opMul a b ∧
    (b ≠ 0 →
      TestFolder.divide a b = TestFolder.FolderResult.num (a / b) ∧
      TestRepo.truediv a b = Except.ok (a / b)) := by
  refine ⟨rfl, rfl, rfl, fun hb => ?_⟩
  constructor <;> simp [TestFolder.divide, TestRepo.truediv, hb]

/-- C6 witness at a = 10, b = 2. -/
theorem C6_core_equiv_witness :
    TestFolder.divide 10 2 = TestFolder.FolderResult.num (10 / 2) ∧
    TestRepo.truediv 10 2 = Except.ok (10 / 2) :=
  (C6_core_equiv 10 2).2.2.2 (by norm_num)

/-- C7: Add and Multiply are commutative in both variants: swapping the two
operands leaves the evaluation result unchanged. -/
theorem C7_comm (a b : ℚ) :
    TestFolder.tf_evaluate Operation.add a b = TestFolder.tf_evaluate Operation.add b a ∧
    TestFolder.tf_evaluate Operation.multiply a b =
      TestFolder.tf_evaluate Operation.multiply b a ∧
    TestRepo.applyFunc Operation.add a b = TestRepo.applyFunc Operation.add b a ∧
    TestRepo.applyFunc Operation.multiply a b = TestRepo.applyFunc Operation.multiply b a := by
  refine ⟨?_, ?_, ?_, ?_⟩ <;>
    simp [TestFolder.tf_evaluate, TestFolder.add, TestFolder.multiply,
      TestRepo.applyFunc, TestRepo.opAdd, TestRepo.opMul, add_comm, mul_comm]

/-- C8: 0 is a right identity of Add and 1 a right identity of Multiply and
Divide, in both variants; in particular Divide by 1 succeeds. -/
theorem C8_identity (a : ℚ) :
    TestFolder.tf_evaluate Operation.add a 0 = TestFolder.FolderResult.num a ∧
    TestFolder.tf_evaluate Operation.multiply a 1 = TestFolder.FolderResult.num a ∧
    TestFolder.tf_evaluate Operation.divide a 1 = TestFolder.FolderResult.num a ∧
    TestRepo.applyFunc Operation.add a 0 = Except.ok a ∧
    TestRepo.applyFunc Operation.multiply a 1 = Except.ok a ∧
    TestRepo.applyFunc Operation.divide a 1 = Except.ok a := by
  refine ⟨?_, ?_, ?_, ?_, ?_, ?_⟩ <;>
    simp [TestFolder.tf_evaluate, TestFolder.add, TestFolder.multiply, TestFolder.divide,
      TestRepo.applyFunc, TestRepo.opAdd, TestRepo.opMul, TestRepo.truediv]

/-- C9: the dispatcher is pure and deterministic: results depend only on the
operation and the operands, and the whole observable output of each main
(stdout, stderr, exit code) is a function of the dispatcher return value
alone, so evaluation itself performs no I/O. -/
theorem C9_pure :
    (∀ (op : Operation) (a b c d : ℚ), a = c → b = d →
      TestFolder.tf_evaluate op a b = TestFolder.tf_evaluate op c d ∧
      TestRepo.applyFunc op a b = TestRepo.applyFunc op c d) ∧
    (∀ (op opb : Operation) (a b c d : ℚ),
      TestFolder.tf_evaluate op a b = TestFolder.tf_evaluate opb c d →
      TestFolder.main op a b = TestFolder.main opb c d) ∧
    (∀ (op opb : Operation) (a b c d : ℚ),
      TestRepo.applyFunc op a b = TestRepo.applyFunc opb c d →
      TestRepo.main op a b = TestRepo.main opb c d) := by
  refine ⟨?_, ?_, ?_⟩
  · rintro op a b c d rfl rfl
    exact ⟨rfl, rfl⟩
  · intro op opb a b c d h
    simp only [TestFolder.main, h]
  · intro op opb a b c d h
    simp only [TestRepo.main, h]

/-- C9 witness: two invocations whose dispatcher results coincide produce
identical process output. -/
theorem C9_pure_witness :
    TestRepo.main Operation.add 2 4 = TestRepo.main Operation.multiply 2 3 :=
  C9_pure.2.2 Operation.add Operation.multiply 2 4 2 3 (by
    show Except.ok (TestRepo.opAdd 2 4) = Except.ok (TestRepo.opMul 2 3)
    norm_num [TestRepo.opAdd, TestRepo.opMul])

/-- C10: in the test_repo variant, whenever the operation is not Divide or
the second operand is non-zero, args.func succeeds (no ZeroDivisionError),
so the except branch is not taken: main writes nothing to stderr and
returns 0. -/
theorem C10_no_zero_division (op : Operation) (a b : ℚ)
    (h : op ≠ Operation.divide ∨ b ≠ 0) :
    (∃ r, TestRepo.applyFunc op a b = Except.ok r) ∧
    (TestRepo.main op a b).stderr = [] ∧
    (TestRepo.main op a b).exitCode = 0 := by
  obtain ⟨r, hr⟩ : ∃ r, TestRepo.applyFunc op a b = Except.ok r := by
    cases op with
    | add => exact ⟨_, rfl⟩
    | subtract => exact ⟨_, rfl⟩
    | multiply => exact ⟨_, rfl⟩
    | divide =>
        rcases h with h | hb
        · exact absurd rfl h
        · exact ⟨a / b, by simp [TestRepo.applyFunc, TestRepo.truediv, hb]⟩
  refine ⟨⟨r, hr⟩, ?_, ?_⟩ <;> simp [TestRepo.main, hr]

/-- C10 witness at divide 10 2. -/
theorem C10_no_zero_division_witness :
    (∃ r, TestRepo.applyFunc Operation.divide 10 2 = Except.ok r) ∧
    (TestRepo.main Operation.divide 10 2).stderr = [] ∧
    (TestRepo.main Operation.divide 10 2).exitCode = 0 :=
  C10_no_zero_division Operation.divide 10 2 (Or.inr (by norm_num))
